import Mathlib
set_option maxHeartbeats 1000000
namespace GeeAuto

/-!
Verification of the compositing and orchestration core of
`script_automate.py` (GEE -> Drive -> FTP pipeline).

Part 1: pixel-level model of the Earth Engine compositing pipeline.
A pixel of one band is `Option ℚ`: `none` is a masked (missing) pixel,
`some x` a valid value.  All Earth Engine raster operations the script
uses are modelled pointwise, per band.
-/

/-- The seven exported index bands, in declared order (`INDICES` in the script). -/
def INDICES : List String := ["NDVI", "EVI", "LAI", "NDRE", "MSAVI", "SIWSI", "NMDI"]

/-- One pixel of one band: `none` means masked (no valid value). -/
abbrev Pix := Option ℚ

/-- Pointwise semantics of `input.where(test, value)`: where `test` is masked
or zero the input pixel is kept; where `test` is non-zero the pixel of `value`
is used, unless `value` is masked there, in which case the input pixel is kept. -/
def eeWhere {α : Type} (input : Option α) (test : Option ℚ) (value : Option α) : Option α :=
  match test with
  | none => input
  | some t =>
    if t = 0 then input
    else
      match value with
      | none => input
      | some v => some v

/-- Pointwise `img.mask()`: an always-valid image that is 1 where `img` is
valid and 0 where it is masked. -/
def eeMask {α : Type} (p : Option α) : ℚ := if p.isSome then 1 else 0

/-- Pointwise `img.mask().Not()`: 1 where `img` is masked, 0 where valid. -/
def eeMaskNot {α : Type} (p : Option α) : ℚ := if p.isSome then 0 else 1

/-- Pointwise mask-propagating addition `a.add(b)`. -/
def eeAdd (a b : Pix) : Pix :=
  match a, b with
  | some x, some y => some (x + y)
  | _, _ => none

/-- Pointwise `a.divide(2)`. -/
def eeDivTwo (a : Pix) : Pix := a.map (fun x => x / 2)

/-- Gap fill of the central dekad, from the script:
`filled = dek2.where(dek2.mask().Not(), dek1.add(dek3).divide(2))`. -/
def filled (d1 d2 d3 : Pix) : Pix :=
  eeWhere d2 (some (eeMaskNot d2)) (eeDivTwo (eeAdd d1 d3))

/-- Pointwise `clamp(lo, hi)`. -/
def clampQ (lo hi x : ℚ) : ℚ := max lo (min hi x)

/-- Per-band result of
`bounded_all = filled.select(INDICES).clamp(-1, 1)`,
`lai_fixed = filled.select('LAI').clamp(-1, 3.2)`,
`bounded = bounded_all.addBands(lai_fixed, overwrite=True).select(INDICES)`:
the overwrite makes the LAI band the clamp of `filled` to [-1, 3.2] and every
other band the clamp of `filled` to [-1, 1]. -/
def bounded (band : String) (p : Pix) : Pix :=
  if band = "LAI" then p.map (fun x => clampQ (-1) (3.2 : ℚ) x)
  else p.map (fun x => clampQ (-1) 1 x)

/-- Rounding to the nearest integer, halves away from zero (`ee.Image.round`). -/
def roundAway (x : ℚ) : ℤ := if 0 ≤ x then ⌊x + 1 / 2⌋ else -⌊-x + 1 / 2⌋

/-- Per-band `scaled = bounded.multiply(10000.0).round()`. -/
def scaled (band : String) (p : Pix) : Option ℤ :=
  (bounded band p).map (fun x => roundAway (x * 10000))

/-- Saturating cast to a signed 16-bit integer (`toInt16`). -/
def toInt16 (z : ℤ) : ℤ := max (-32768) (min 32767 z)

/-- Per-band `img_site = scaled.unmask(-32767)`: valid everywhere; masked
pixels are replaced by the persistent-cloud code -32767. -/
def img_site (band : String) (p : Pix) : ℤ := (scaled band p).getD (-32767)

/-- Pointwise `mask_poly = ee.Image.constant(1).clip(geom).reproject(...)`:
1 inside the region polygon, masked outside of it. -/
def mask_poly (inside : Bool) : Option ℚ := if inside then some 1 else none

/-- Per-band `img_masked = img_site.updateMask(mask_poly)`: the value of
`img_site` inside the polygon, masked outside. -/
def img_masked (band : String) (inside : Bool) (p : Pix) : Option ℤ :=
  match mask_poly inside with
  | none => none
  | some m => if m = 0 then none else some (img_site band p)

/-- Per-band final export pixel, from the script:
`img_full = ee.Image.constant([-32768] * 7).rename(INDICES).toInt16()` and
`img_final = img_full.where(img_masked.mask(), img_masked.toInt16())`. -/
def img_final (band : String) (inside : Bool) (p : Pix) : Option ℤ :=
  eeWhere (some (toInt16 (-32768))) (some (eeMask (img_masked band inside p)))
    ((img_masked band inside p).map toInt16)

/-- Lower clamp bound of each band (every band is clamped from below at -1). -/
def lowerBound (band : String) : ℚ := -1

/-- Upper clamp bound of each band: 3.2 for LAI, 1 for the six other indices. -/
def upperBound (band : String) : ℚ := if band = "LAI" then (3.2 : ℚ) else 1

/-!
Part 2: the Drive utility layer of the script — the backoff retry wrapper
`_retry`, the best-effort delete `drv_del` and the chunked download
`drv_download`.  An attempt of a remote operation is modelled as a function
from the attempt number (1-based, as in `for i in range(1, 7)`) to an
`Except` outcome; sleeping and jitter are irrelevant to the claims and
elided.
-/

/-- The exception kinds distinguished by the script: the three classes caught
by the retry wrapper (`ssl.SSLError`, `socket.error`, `HttpError` with its
HTTP status), and any other exception. -/
inductive DriveExc where
  | sslError : DriveExc
  | socketError : DriveExc
  | httpError : Nat → DriveExc
  | otherExc : String → DriveExc
deriving DecidableEq

/-- The `except (ssl.SSLError, socket.error, HttpError)` clause of `_retry`:
which exceptions it catches. -/
def retryable : DriveExc → Bool
  | .sslError => true
  | .socketError => true
  | .httpError _ => true
  | .otherExc _ => false

/-- Body of `_retry`: attempt `i` runs `op i`; a retryable failure is retried
unless this was the last attempt (`i == 6`, which is `fuel = 0` counting
`fuel = 6 - i`); a non-retryable failure propagates at once.  Returns the
outcome together with the index of the last attempt made. -/
def retryGo {α : Type} (op : Nat → Except DriveExc α) : Nat → Nat → Except DriveExc α × Nat
  | i, fuel =>
    match op i with
    | .ok a => (.ok a, i)
    | .error e =>
      if retryable e then
        match fuel with
        | 0 => (.error e, i)
        | f + 1 => retryGo op (i + 1) f
      else (.error e, i)

/-- `_retry(fun)`: up to 6 attempts, starting at attempt 1. -/
def _retry {α : Type} (op : Nat → Except DriveExc α) : Except DriveExc α × Nat :=
  retryGo op 1 5

/-- `drv_del`: runs the delete through `_retry`; an `HttpError` escaping the
wrapper with status 403 or 404 is swallowed, any other escaping exception is
re-raised. -/
def drv_del (delOp : Nat → Except DriveExc Unit) : Except DriveExc Unit :=
  match (_retry delOp).1 with
  | .ok _ => .ok ()
  | .error (.httpError s) => if s = 403 ∨ s = 404 then .ok () else .error (.httpError s)
  | .error e => .error e

/-- One `_retry(dl.next_chunk)` call of `drv_download` for chunk index `k`:
`chunkAttempt k i` is the outcome (bytes fetched, downloader done flag) of
attempt `i` at fetching chunk `k`. -/
def chunkCall (chunkAttempt : Nat → Nat → Except DriveExc (Nat × Bool)) (k : Nat) :
    Except DriveExc (Nat × Bool) × Nat :=
  _retry (chunkAttempt k)

/-- The `while not done` loop of `drv_download`, accumulating the bytes
written to the scratch file.  The loop runs until the downloader reports
done; `fuel` bounds the number of chunks only so that the model is total.
The byte count is never inspected: there is no emptiness check. -/
def drv_downloadGo (chunkAttempt : Nat → Nat → Except DriveExc (Nat × Bool)) :
    Nat → Nat → Nat → Except DriveExc Nat
  | k, acc, fuel =>
    match (chunkCall chunkAttempt k).1 with
    | .error e => .error e
    | .ok (n, done) =>
      if done then .ok (acc + n)
      else
        match fuel with
        | 0 => .error (.otherExc "chunk stream did not terminate")
        | f + 1 => drv_downloadGo chunkAttempt (k + 1) (acc + n) f

/-- `drv_download(fid, path)`: returns the total number of bytes written to
the scratch file on success. -/
def drv_download (chunkAttempt : Nat → Nat → Except DriveExc (Nat × Bool)) (fuel : Nat) :
    Except DriveExc Nat :=
  drv_downloadGo chunkAttempt 0 0 fuel

/-!
Part 3: the per-site orchestration of the script — export task submission,
the Earth Engine task poller, the Drive `.tif` materialization poller, the
FTP transfer loop and the summary mail.  Wall-clock time is discrete: the
task poller polls at seconds 0, 30, 60, ... (`POLL_EVERY = 30`) and the
file poller at seconds 0, 15, 30, ... (`time.sleep(15)`).  A fatal
`RuntimeError` is a `PipeErr`.
-/

/-- The two `RuntimeError` raises of the per-site loop: Earth Engine task
timeout and incomplete `.tif` files on Drive. -/
inductive PipeErr where
  | eeTimeout : PipeErr
  | fileTimeout : PipeErr
deriving DecidableEq

/-- The terminal task states accepted by the poller:
`("COMPLETED", "FAILED", "CANCELLED", "CANCEL_REQUESTED")`. -/
def TERMINAL : List String := ["COMPLETED", "FAILED", "CANCELLED", "CANCEL_REQUESTED"]

/-- Whether a task state string is terminal. -/
def isTerminal (s : String) : Bool := TERMINAL.contains s

/-- `POLL_EVERY = 30` seconds between Earth Engine status polls. -/
def POLL_EVERY : Nat := 30

/-- The `while pending and time.time() - t0 < site_wait` loop: at poll time
`t` every pending task whose state is terminal is removed; if tasks remain,
sleep `POLL_EVERY` and poll again.  `status t j` is the state string task
`j` reports at time `t`.  Returns the tasks still pending at exit. -/
def pollJobsGo (status : Nat → String → String) (siteWait : Nat)
    (pending : List String) (t : Nat) : List String :=
  if h : pending = [] ∨ siteWait ≤ t then pending
  else
    if pending.filter (fun j => !(isTerminal (status t j))) = [] then
      pending.filter (fun j => !(isTerminal (status t j)))
    else
      pollJobsGo status siteWait (pending.filter (fun j => !(isTerminal (status t j))))
        (t + POLL_EVERY)
termination_by siteWait - t
decreasing_by
  have h2 := (not_or.mp h).2
  simp only [POLL_EVERY]
  omega

/-- The Earth Engine wait step of the site loop:
`site_wait = max(WAIT_TIME, PER_TASK_WAIT * len(tasks))`, then the polling
loop, then `raise RuntimeError` if tasks are still pending. -/
def waitTasks (status : Nat → String → String) (WAIT_TIME PER_TASK_WAIT : Nat)
    (taskNames : List String) : Except PipeErr Unit :=
  if pollJobsGo status (max WAIT_TIME (PER_TASK_WAIT * taskNames.length)) taskNames 0 = []
  then .ok ()
  else .error .eeTimeout

/-- A file returned by the Drive listing: name and byte size
(`int(f.get("size", "0"))`). -/
structure FileMeta where
  name : String
  size : Nat
deriving DecidableEq

/-- The `.tif` materialization loop: at poll `k` (elapsed `15 * k` seconds)
list the folder, keep the files of size strictly greater than zero; stop
with the ready list once it has at least `want` entries; raise
`RuntimeError` once the elapsed time exceeds `FILE_TIMEOUT`. -/
def pollOutputsGo (listing : Nat → List FileMeta) (want FILE_TIMEOUT : Nat)
    (k : Nat) : Except PipeErr (List FileMeta) :=
  if want ≤ ((listing k).filter (fun f => decide (0 < f.size))).length then
    .ok ((listing k).filter (fun f => decide (0 < f.size)))
  else if FILE_TIMEOUT < 15 * k then .error .fileTimeout
  else pollOutputsGo listing want FILE_TIMEOUT (k + 1)
termination_by FILE_TIMEOUT / 15 + 1 - k
decreasing_by
  rename_i h1 h2
  have h3 : k ≤ FILE_TIMEOUT / 15 :=
    (Nat.le_div_iff_mul_le (by norm_num)).mpr (by omega)
  omega

/-- Result of one `ftp.storbinary` upload: success, or the text of the
caught exception. -/
inductive UpResult where
  | ok : UpResult
  | fail : String → UpResult
deriving DecidableEq

/-- Per-site accumulation of the transfer loop: the `sent` list, the `errs`
list of (filename, error text) pairs, and the scratch files removed by the
`finally: os.remove(tmp)` clause. -/
structure SiteOutcome where
  sent : List String
  errs : List (String × String)
  removed : List String
deriving DecidableEq

/-- One iteration of the `for f in ready` transfer loop: download to
`/tmp/{name}`, try the upload, record success in `sent` or the exception in
`errs`, and always remove the scratch copy. -/
def transferStep (site : String) (upload : String → UpResult) (st : SiteOutcome)
    (f : FileMeta) : SiteOutcome :=
  match upload f.name with
  | .ok =>
    ⟨st.sent ++ [site ++ "/" ++ f.name], st.errs, st.removed ++ ["/tmp/" ++ f.name]⟩
  | .fail e =>
    ⟨st.sent, st.errs ++ [(site ++ "/" ++ f.name, e)], st.removed ++ ["/tmp/" ++ f.name]⟩

/-- The whole transfer loop over the ready files, in listing order. -/
def transferFiles (site : String) (upload : String → UpResult)
    (files : List FileMeta) : SiteOutcome :=
  files.foldl (transferStep site upload) ⟨[], [], []⟩

/-- One export task of the submission loop: site, band and representative
date of its window. -/
structure ExportTask where
  site : String
  band : String
  dateStr : String
deriving DecidableEq

/-- The export file name `f"{site}_{band}_{date_str}"`. -/
def taskFname (t : ExportTask) : String :=
  t.site ++ "_" ++ t.band ++ "_" ++ t.dateStr

/-- The export submission double loop: one task per window offset (outer
loop) and per band of `INDICES` (inner loop), in loop order. -/
def exportTasks (site : String) : List String → List String → List ExportTask
  | [], _ => []
  | d :: ds, bands => bands.map (fun b => ⟨site, b, d⟩) ++ exportTasks site ds bands

/-- The per-site pipeline after submission: wait for the Earth Engine tasks,
then wait for the `.tif` files on Drive (`want = len(tasks)`), then run the
FTP transfer loop on the ready files.  A raised `RuntimeError` aborts before
the later steps run. -/
def sitePipeline (status : Nat → String → String) (WAIT_TIME PER_TASK_WAIT : Nat)
    (listing : Nat → List FileMeta) (FILE_TIMEOUT : Nat)
    (upload : String → UpResult) (site : String) (taskNames : List String) :
    Except PipeErr SiteOutcome :=
  match waitTasks status WAIT_TIME PER_TASK_WAIT taskNames with
  | .error e => .error e
  | .ok _ =>
    match pollOutputsGo listing taskNames.length FILE_TIMEOUT 0 with
    | .error e => .error e
    | .ok ready => .ok (transferFiles site upload ready)

/-- The body of the summary mail: total exports line, transferred-files
line, and — only when there are errors — one aggregated FTP-errors line
listing each failure as `name : error`. -/
def mailBody (totalTasks nSites : Nat) (allSent : List String)
    (allErrs : List (String × String)) : List String :=
  let base := [toString totalTasks ++ " exports lancés sur " ++ toString nSites ++ " sites.",
    toString allSent.length ++ " fichiers transférés :\n- " ++ String.intercalate "\n- " allSent]
  if allErrs = [] then base
  else base ++ [toString allErrs.length ++ " erreur(s) FTP :\n" ++
    String.intercalate "\n" (allErrs.map (fun p => p.1 ++ " : " ++ p.2))]

/-- The subject of the summary mail. -/
def mailSubject (allErrs : List (String × String)) : String :=
  "GEE -> Drive -> FTP : " ++ (if allErrs = [] then "Succès" else "Succès (avec erreurs)")

/-- Everything that drives one site of the main loop. -/
structure SiteEnv where
  status : Nat → String → String
  listing : Nat → List FileMeta
  upload : String → UpResult
  taskNames : List String

/-- The main loop over the sites, accumulating `all_sent` and `all_errs`; a
raised `RuntimeError` propagates and aborts the whole run. -/
def runAllGo (WAIT_TIME PER_TASK_WAIT FILE_TIMEOUT : Nat) (env : String → SiteEnv) :
    List String → List String → List (String × String) →
    Except PipeErr (List String × List (String × String))
  | [], allSent, allErrs => .ok (allSent, allErrs)
  | site :: rest, allSent, allErrs =>
    match sitePipeline (env site).status WAIT_TIME PER_TASK_WAIT (env site).listing
        FILE_TIMEOUT (env site).upload site (env site).taskNames with
    | .error e => .error e
    | .ok st =>
      runAllGo WAIT_TIME PER_TASK_WAIT FILE_TIMEOUT env rest
        (allSent ++ st.sent) (allErrs ++ st.errs)

/-- The notifications a run emits: the script sends exactly one summary mail
at the very end of the main loop, so an uncaught `RuntimeError` earlier in
the run means no mail at all is sent. -/
def runMails (WAIT_TIME PER_TASK_WAIT FILE_TIMEOUT : Nat) (sites : List String)
    (env : String → SiteEnv) : List String :=
  match runAllGo WAIT_TIME PER_TASK_WAIT FILE_TIMEOUT env sites [] [] with
  | .error _ => []
  | .ok (_, allErrs) => [mailSubject allErrs]

/-! ### Lemmas about the transfer loop and the summary mail -/

/-- Error text of an upload outcome (`str(e)` of the caught exception). -/
def failText : UpResult → String
  | .ok => ""
  | .fail e => e

/-- Whether an upload outcome is a failure. -/
def isFail : UpResult → Bool
  | .ok => false
  | .fail _ => true

/-- The successful transfers of a file list, as recorded in `sent`. -/
def sentOf (site : String) (upload : String → UpResult) (files : List FileMeta) :
    List String :=
  (files.filter (fun f => !(isFail (upload f.name)))).map (fun f => site ++ "/" ++ f.name)

/-- The failed transfers of a file list, as recorded in `errs`. -/
def errsOf (site : String) (upload : String → UpResult) (files : List FileMeta) :
    List (String × String) :=
  (files.filter (fun f => isFail (upload f.name))).map
    (fun f => (site ++ "/" ++ f.name, failText (upload f.name)))

/-! ### Range lemmas for the quantized values -/

lemma clampQ_le (lo hi x : ℚ) (h : lo ≤ hi) : clampQ lo hi x ≤ hi := by
  unfold clampQ
  rcases le_total x hi with hx | hx
  · simp [min_eq_left hx, max_le_iff, h, le_refl]
  · simp [min_eq_right hx, max_le_iff, h, le_refl]

lemma le_clampQ (lo hi x : ℚ) : lo ≤ clampQ lo hi x := le_max_left _ _

lemma floor_half_rat : ⌊(1 / 2 : ℚ)⌋ = 0 := by
  rw [Int.floor_eq_iff] <;> norm_num

lemma roundAway_bounds (L H : ℤ) (y : ℚ) (hL : L ≤ 0) (hH : 0 ≤ H)
    (h1 : (L : ℚ) ≤ y) (h2 : y ≤ (H : ℚ)) : L ≤ roundAway y ∧ roundAway y ≤ H := by
  unfold roundAway
  by_cases hy : 0 ≤ y
  · rw [if_pos hy]
    constructor
    · have h0 : ⌊(1 / 2 : ℚ)⌋ ≤ ⌊y + 1 / 2⌋ := Int.floor_mono (by linarith)
      rw [floor_half_rat] at h0
      omega
    · have h0 : ⌊y + 1 / 2⌋ ≤ ⌊(H : ℚ) + 1 / 2⌋ := Int.floor_mono (by linarith)
      have hH2 : ⌊(H : ℚ) + 1 / 2⌋ = H := by
        rw [add_comm, Int.floor_add_int, floor_half_rat]; omega
      omega
  · rw [if_neg hy]
    push_neg at hy
    constructor
    · have : ⌊-y + 1 / 2⌋ ≤ ⌊(-L : ℚ) + 1 / 2⌋ := by
        apply Int.floor_mono
        have : (L : ℚ) ≤ y := h1
        push_cast
        linarith
      have hL2 : ⌊(-L : ℚ) + 1 / 2⌋ = -L := by
        rw [add_comm]
        rw [show ((-L : ℚ)) = ((-L : ℤ) : ℚ) by push_cast; ring]
        rw [Int.floor_add_int, floor_half_rat]; omega
      omega
    · have h0 : (0 : ℤ) ≤ ⌊-y + 1 / 2⌋ := by
        have : ⌊(1 / 2 : ℚ)⌋ ≤ ⌊-y + 1 / 2⌋ := Int.floor_mono (by linarith)
        rw [floor_half_rat] at this
        omega
      omega

/-- Any valid scaled pixel lies between -10000 and the scaled upper clamp bound
(10000 for ordinary bands, 32000 for LAI). -/
lemma scaled_range (band : String) (p : Pix) (z : ℤ) (h : scaled band p = some z) :
    -10000 ≤ z ∧ z ≤ (if band = "LAI" then 32000 else 10000) := by
  unfold scaled bounded at h
  by_cases hb : band = "LAI"
  · simp only [hb, if_pos] at h ⊢
    rcases p with _ | x
    · simp at h
    · simp only [Option.map_some', Option.map_map, Function.comp_apply,
        Option.some.injEq] at h
      subst h
      have h1 : (-1 : ℚ) ≤ clampQ (-1) (3.2 : ℚ) x := le_clampQ _ _ _
      have h2 : clampQ (-1) (3.2 : ℚ) x ≤ (3.2 : ℚ) := clampQ_le _ _ _ (by norm_num)
      have := roundAway_bounds (-10000) 32000 (clampQ (-1) (3.2 : ℚ) x * 10000)
        (by norm_num) (by norm_num)
        (by push_cast; nlinarith) (by push_cast; nlinarith)
      simpa using this
  · simp only [hb, if_neg, if_false] at h ⊢
    rcases p with _ | x
    · simp at h
    · simp only [Option.map_some', Option.map_map, Function.comp_apply,
        Option.some.injEq] at h
      subst h
      have h1 : (-1 : ℚ) ≤ clampQ (-1) 1 x := le_clampQ _ _ _
      have h2 : clampQ (-1) 1 x ≤ (1 : ℚ) := clampQ_le _ _ _ (by norm_num)
      have := roundAway_bounds (-10000) 10000 (clampQ (-1) 1 x * 10000)
        (by norm_num) (by norm_num)
        (by push_cast; nlinarith) (by push_cast; nlinarith)
      simpa using this

lemma toInt16_of_range (z : ℤ) (h1 : -32768 ≤ z) (h2 : z ≤ 32767) : toInt16 z = z := by
  unfold toInt16; omega

/-- The valid scaled value of a pixel is never one of the two reserved codes. -/
lemma scaled_ne_codes (band : String) (p : Pix) (z : ℤ) (h : scaled band p = some z) :
    z ≠ -32768 ∧ z ≠ -32767 := by
  have := scaled_range band p z h
  by_cases hb : band = "LAI" <;> simp [hb] at this <;> omega

/-- Shape of the final export pixel: -32768 outside the polygon, -32767
inside where the composite is masked, the quantized value otherwise. -/
lemma img_final_cases (band : String) (inside : Bool) (p : Pix) :
    img_final band inside p =
      (if inside then
        (match scaled band p with
          | none => some (-32767)
          | some z => some (toInt16 z))
       else some (-32768)) := by
  cases inside
  · simp [img_final, img_masked, mask_poly, eeMask, eeWhere, toInt16]
  · rcases hs : scaled band p with _ | z
    · simp [img_final, img_masked, mask_poly, eeMask, eeWhere, img_site, hs]
      norm_num [toInt16]
    · simp [img_final, img_masked, mask_poly, eeMask, eeWhere, img_site, hs]

/-- Claim C1: in the final exported raster, a pixel carries -32768 in a band
exactly when it lies outside the region polygon; it carries -32767 exactly
when it lies inside the polygon and the gap-filled composite is masked there
(no cloud-free observation survived for it); and the two codes are never
assigned to the same (pixel, band). -/
lemma scaled_none_iff (band : String) (p : Pix) : scaled band p = none ↔ p = none := by
  unfold scaled bounded
  rcases p with _ | x <;> by_cases hb : band = "LAI" <;> simp [hb]

theorem final_raster_nodata_codes (band : String) (inside : Bool) (d1 d2 d3 : Pix) :
    (img_final band inside (filled d1 d2 d3) = some (-32768) ↔ inside = false) ∧
    (img_final band inside (filled d1 d2 d3) = some (-32767) ↔
      (inside = true ∧ filled d1 d2 d3 = none)) ∧
    ¬(img_final band inside (filled d1 d2 d3) = some (-32768) ∧
      img_final band inside (filled d1 d2 d3) = some (-32767)) := by
  generalize filled d1 d2 d3 = p
  have hc := img_final_cases band inside p
  cases inside
  · rw [hc]
    refine ⟨by simp, ?_, ?_⟩
    · simp only [if_neg Bool.false_ne_true]
      constructor
      · intro h
        exact absurd (Option.some.inj h) (by decide)
      · rintro ⟨h, -⟩
        exact absurd h (by decide)
    · rintro ⟨h1, h2⟩
      rw [h1] at h2
      exact absurd (Option.some.inj h2) (by decide)
  · rcases hs : scaled band p with _ | z
    · have hp : p = none := (scaled_none_iff band p).mp hs
      have hval : img_final band true p = some (-32767) := by
        rw [hc, if_pos rfl, hs]
      rw [hval]
      refine ⟨?_, ?_, ?_⟩
      · constructor
        · intro h
          exact absurd (Option.some.inj h) (by decide)
        · intro h
          exact absurd h (by decide)
      · simp [hp]
      · rintro ⟨h1, -⟩
        exact absurd (Option.some.inj h1) (by decide)

    · have hz := scaled_ne_codes band p z hs
      have hr := scaled_range band p z hs
      have h16 : toInt16 z = z := by
        apply toInt16_of_range
        · omega
        · by_cases hb : band = "LAI" <;> simp [hb] at hr <;> omega
      have hpn : p ≠ none := by
        intro hp
        rw [(scaled_none_iff band p).mpr hp] at hs
        exact Option.noConfusion hs
      have hval : img_final band true p = some (toInt16 z) := by
        rw [hc, if_pos rfl, hs]
      rw [hval, h16]
      refine ⟨?_, ?_, ?_⟩
      · constructor
        · intro h
          exact absurd (Option.some.inj h) hz.1
        · intro h
          exact absurd h (by decide)
      · constructor
        · intro h
          exact absurd (Option.some.inj h) hz.2
        · rintro ⟨-, h⟩
          exact absurd h hpn
      · rintro ⟨h1, h2⟩
        rw [h1] at h2
        exact absurd (Option.some.inj h2) (by decide)

/-- Witness for C1 at a concrete pixel outside the polygon. -/
theorem final_raster_nodata_codes_witness :
    img_final "NDVI" false (filled none none none) = some (-32768) :=
  (final_raster_nodata_codes "NDVI" false none none none).1.mpr rfl

/-- Claim C2: every final export pixel value is -32768, -32767, or an integer
in the clamp range scaled by 10000: [round(-1 x 10000), round(1 x 10000)] for
the six ordinary indices and [round(-1 x 10000), round(3.2 x 10000)] for LAI. -/
theorem quantized_value_range (band : String) (hband : band ∈ INDICES)
    (inside : Bool) (d1 d2 d3 : Pix) (z : ℤ)
    (h : img_final band inside (filled d1 d2 d3) = some z) :
    z = -32768 ∨ z = -32767 ∨
      (roundAway (lowerBound band * 10000) ≤ z ∧
       z ≤ roundAway (upperBound band * 10000)) := by
  have hlo : roundAway (lowerBound band * 10000) = -10000 := by
    unfold lowerBound roundAway
    norm_num
  have hhi : roundAway (upperBound band * 10000) = (if band = "LAI" then 32000 else 10000) := by
    unfold upperBound roundAway
    by_cases hb : band = "LAI" <;> simp [hb] <;> norm_num
  rw [img_final_cases] at h
  cases inside
  · rw [if_neg Bool.false_ne_true] at h
    exact Or.inl (Option.some.inj h).symm
  · rw [if_pos rfl] at h
    rcases hs : scaled band (filled d1 d2 d3) with _ | w
    · rw [hs] at h
      exact Or.inr (Or.inl (Option.some.inj h).symm)
    · rw [hs] at h
      have hzw : toInt16 w = z := Option.some.inj h
      have hr := scaled_range band (filled d1 d2 d3) w hs
      have h16 : toInt16 w = w := by
        apply toInt16_of_range
        · omega
        · by_cases hb : band = "LAI" <;> simp [hb] at hr <;> omega
      refine Or.inr (Or.inr ?_)
      have hwz : z = w := by rw [← hzw, h16]
      subst hwz
      rw [hlo, hhi]
      exact hr

/-- Witness for C2 at a concrete inside pixel of value 0.5 in NDVI. -/
theorem quantized_value_range_witness :
    (5000 : ℤ) = -32768 ∨ (5000 : ℤ) = -32767 ∨
      (roundAway (lowerBound "NDVI" * 10000) ≤ (5000 : ℤ) ∧
       (5000 : ℤ) ≤ roundAway (upperBound "NDVI" * 10000)) := by
  apply quantized_value_range "NDVI" (by decide) true none (some (1 / 2)) none 5000
  have hf : filled none (some (1 / 2)) none = some (1 / 2) := by
    simp [filled, eeWhere, eeMaskNot]
  have hcl : clampQ (-1) 1 (1 / 2 : ℚ) = 1 / 2 := by
    unfold clampQ
    rw [min_eq_right (by norm_num), max_eq_right (by norm_num)]
  have hra : roundAway ((1 / 2 : ℚ) * 10000) = 5000 := by
    rw [show ((1 / 2 : ℚ) * 10000) = ((5000 : ℤ) : ℚ) by push_cast; norm_num]
    unfold roundAway
    rw [if_pos (by norm_num), add_comm, Int.floor_add_int, floor_half_rat]
    omega
  have hs : scaled "NDVI" (some (1 / 2 : ℚ)) = some 5000 := by
    unfold scaled bounded
    rw [if_neg (by decide)]
    simp only [Option.map_some', Option.map_map, Function.comp_apply]
    rw [hcl, hra]
  rw [img_final_cases, hf, if_pos rfl, hs]
  show some (toInt16 5000) = some 5000
  rw [toInt16_of_range 5000 (by norm_num) (by norm_num)]

/-- Claim C3: in the gap-filled composite, a pixel where the central dekad D2
is valid keeps the D2 value untouched; a pixel where D2 is masked and both D1
and D3 are valid becomes the pixel-wise average (D1 + D3) / 2; and a pixel
where D2 is masked but D1 or D3 is also masked stays masked (D1 and D3 are
not themselves back-filled). -/
theorem gap_fill_behavior (d1 d2 d3 : Pix) :
    (∀ v : ℚ, d2 = some v → filled d1 d2 d3 = some v) ∧
    (∀ a b : ℚ, d2 = none → d1 = some a → d3 = some b →
      filled d1 d2 d3 = some ((a + b) / 2)) ∧
    (d2 = none → (d1 = none ∨ d3 = none) → filled d1 d2 d3 = none) := by
  refine ⟨?_, ?_, ?_⟩
  · intro v hv
    simp [filled, eeWhere, eeMaskNot, hv]
  · intro a b h2 h1 h3
    simp [filled, eeWhere, eeMaskNot, eeAdd, eeDivTwo, h1, h2, h3]
  · intro h2 h13
    rcases h13 with h1 | h3
    · simp [filled, eeWhere, eeMaskNot, eeAdd, eeDivTwo, h1, h2]
    · rcases d1 with _ | x <;> simp [filled, eeWhere, eeMaskNot, eeAdd, eeDivTwo, h2, h3]

/-- Witness for C3: a concrete D2 gap filled by the average of D1 and D3. -/
theorem gap_fill_behavior_witness : filled (some 1) none (some 3) = some 2 := by
  have h := (gap_fill_behavior (some 1) none (some 3)).2.1 1 3 rfl rfl rfl
  norm_num at h
  exact h

/-- When every attempt fails with an exception the wrapper catches, `_retry`
makes all six attempts and ends with the outcome of attempt 6. -/
lemma retry_all_retryable {α : Type} (op : Nat → Except DriveExc α)
    (H : ∀ i, 1 ≤ i → i ≤ 6 → ∃ e, op i = .error e ∧ retryable e = true) :
    _retry op = (op 6, 6) := by
  obtain ⟨e1, he1, hr1⟩ := H 1 (by omega) (by omega)
  obtain ⟨e2, he2, hr2⟩ := H 2 (by omega) (by omega)
  obtain ⟨e3, he3, hr3⟩ := H 3 (by omega) (by omega)
  obtain ⟨e4, he4, hr4⟩ := H 4 (by omega) (by omega)
  obtain ⟨e5, he5, hr5⟩ := H 5 (by omega) (by omega)
  obtain ⟨e6, he6, hr6⟩ := H 6 (by omega) (by omega)
  unfold _retry
  simp [retryGo, he1, hr1, he2, hr2, he3, hr3, he4, hr4, he5, hr5, he6, hr6]

/-- Counterexample to claim C7 as stated: a delete that always fails with a
permission-denied `HttpError` (status 403) does not propagate immediately
past the retry wrapper — the wrapper makes all 6 attempts (consuming the
whole retry budget) before `drv_del` swallows the failure. -/
theorem bestEffort_delete_counterexample :
    (_retry (fun _ => (Except.error (DriveExc.httpError 403) : Except DriveExc Unit))).2 = 6 ∧
    (_retry (fun _ => (Except.error (DriveExc.httpError 403) : Except DriveExc Unit))).2 ≠ 1 ∧
    drv_del (fun _ => Except.error (DriveExc.httpError 403)) = Except.ok () :=
  ⟨rfl, by decide, rfl⟩

/-- Amended C7: a permission-denied (403) or not-found (404) failure of the
best-effort delete never raises out of `drv_del`, but it IS retried — the
retry wrapper consumes all 6 attempts before the status check skips it; an
`HttpError` with any other status propagates as fatal after retry
exhaustion; an exception outside the retryable classes propagates
immediately after a single attempt. -/
theorem drv_del_amended :
    (∀ delOp : Nat → Except DriveExc Unit,
      (∀ i, 1 ≤ i → i ≤ 6 →
        delOp i = .error (.httpError 403) ∨ delOp i = .error (.httpError 404)) →
      drv_del delOp = .ok () ∧ (_retry delOp).2 = 6) ∧
    (∀ (delOp : Nat → Except DriveExc Unit) (s : Nat), s ≠ 403 → s ≠ 404 →
      (∀ i, delOp i = .error (.httpError s)) →
      drv_del delOp = .error (.httpError s)) ∧
    (∀ (delOp : Nat → Except DriveExc Unit) (tag : String),
      delOp 1 = .error (.otherExc tag) →
      drv_del delOp = .error (.otherExc tag) ∧ (_retry delOp).2 = 1) := by
  refine ⟨?_, ?_, ?_⟩
  · intro delOp H
    have H' : ∀ i, 1 ≤ i → i ≤ 6 → ∃ e, delOp i = .error e ∧ retryable e = true := by
      intro i h1 h2
      rcases H i h1 h2 with h | h <;> exact ⟨_, h, rfl⟩
    have hall := retry_all_retryable delOp H'
    constructor
    · unfold drv_del
      rw [hall]
      rcases H 6 (by omega) (by omega) with h | h <;> rw [h] <;> simp
    · rw [hall]
  · intro delOp s h403 h404 H
    have H' : ∀ i, 1 ≤ i → i ≤ 6 → ∃ e, delOp i = .error e ∧ retryable e = true := by
      intro i h1 h2
      exact ⟨_, H i, rfl⟩
    have hall := retry_all_retryable delOp H'
    unfold drv_del
    rw [hall, H 6]
    simp [h403, h404]
  · intro delOp tag h
    have hr : _retry delOp = (.error (.otherExc tag), 1) := by
      unfold _retry
      simp [retryGo, h, retryable]
    constructor
    · unfold drv_del
      rw [hr]
    · rw [hr]

/-- Witness for the amended C7 at a concrete always-404 delete. -/
theorem drv_del_amended_witness :
    drv_del (fun _ => Except.error (DriveExc.httpError 404)) = Except.ok () ∧
    (_retry (fun _ => (Except.error (DriveExc.httpError 404) : Except DriveExc Unit))).2 = 6 :=
  drv_del_amended.1 (fun _ => Except.error (DriveExc.httpError 404))
    (fun _ _ _ => Or.inr rfl)

/-- Counterexample to claim C8 as stated: a download whose very first chunk
fetch succeeds with 0 bytes and reports done yields a zero-byte scratch file,
yet `drv_download` returns success after a single attempt — it is neither
treated as a transient failure nor retried, and no error is ever raised. -/
theorem zero_byte_download_counterexample :
    drv_download (fun _ _ => Except.ok (0, true)) 100 = Except.ok 0 ∧
    (chunkCall (fun _ _ => (Except.ok ((0 : Nat), true) : Except DriveExc (Nat × Bool))) 0).2
      = 1 :=
  ⟨rfl, rfl⟩

/-- Amended C8: the download is retry-wrapped per chunk fetch — transient
(ssl/socket/HTTP) chunk errors are retried up to 6 attempts — but a
downloaded file of zero bytes is NOT detected: the download returns success
with 0 bytes after a single attempt, and the whole download is never
re-tried on emptiness. -/
theorem download_no_zero_byte_retry :
    (∀ (chunkAttempt : Nat → Nat → Except DriveExc (Nat × Bool)) (fuel : Nat),
      chunkAttempt 0 1 = .ok (0, true) →
      drv_download chunkAttempt fuel = .ok 0 ∧ (chunkCall chunkAttempt 0).2 = 1) ∧
    (∀ (chunkAttempt : Nat → Nat → Except DriveExc (Nat × Bool)) (fuel n : Nat),
      (∀ i, 1 ≤ i → i ≤ 5 → chunkAttempt 0 i = .error .sslError) →
      chunkAttempt 0 6 = .ok (n, true) →
      drv_download chunkAttempt fuel = .ok n) := by
  constructor
  · intro chunkAttempt fuel h
    have hc : chunkCall chunkAttempt 0 = (.ok (0, true), 1) := by
      unfold chunkCall _retry
      simp [retryGo, h]
    constructor
    · unfold drv_download drv_downloadGo
      simp [hc]
    · rw [hc]
  · intro chunkAttempt fuel n H h6
    have h1 := H 1 (by omega) (by omega)
    have h2 := H 2 (by omega) (by omega)
    have h3 := H 3 (by omega) (by omega)
    have h4 := H 4 (by omega) (by omega)
    have h5 := H 5 (by omega) (by omega)
    have hc : chunkCall chunkAttempt 0 = (.ok (n, true), 6) := by
      unfold chunkCall _retry
      simp [retryGo, h1, h2, h3, h4, h5, h6, retryable]
    unfold drv_download drv_downloadGo
    simp [hc]

/-- Witness for the amended C8 at a concrete empty download. -/
theorem download_no_zero_byte_retry_witness :
    drv_download (fun _ _ => Except.ok (0, true)) 3 = Except.ok 0 ∧
    (chunkCall (fun _ _ => (Except.ok ((0 : Nat), true) : Except DriveExc (Nat × Bool))) 0).2
      = 1 :=
  download_no_zero_byte_retry.1 (fun _ _ => Except.ok (0, true)) 3 rfl

/-! ### Lemmas about the Earth Engine task poller -/

/-- A task that is never terminal at any poll time inside the budget stays
in the pending set until the loop gives up. -/
lemma pollJobsGo_stuck (status : Nat → String → String) (sw : Nat) (j : String)
    (hj : ∀ u, u < sw → isTerminal (status u j) = false) :
    ∀ n t pending, sw - t ≤ n → j ∈ pending → j ∈ pollJobsGo status sw pending t := by
  intro n
  induction n with
  | zero =>
    intro t pending hle hmem
    unfold pollJobsGo
    rw [dif_pos (Or.inr (by omega))]
    exact hmem
  | succ n ih =>
    intro t pending hle hmem
    unfold pollJobsGo
    by_cases hg : pending = [] ∨ sw ≤ t
    · rw [dif_pos hg]
      exact hmem
    · rw [dif_neg hg]
      have ht : t < sw := by
        have := (not_or.mp hg).2
        omega
      have hjr : j ∈ pending.filter (fun j => !(isTerminal (status t j))) := by
        rw [List.mem_filter]
        refine ⟨hmem, ?_⟩
        rw [hj t ht]
        rfl
      rw [if_neg (List.ne_nil_of_mem hjr)]
      exact ih (t + POLL_EVERY) _ (by simp only [POLL_EVERY]; omega) hjr

/-- If every pending task is terminal from time `T` on, and some poll time
`30 * m` with `T ≤ 30 * m` lies inside the budget, the loop empties the
pending set. -/
lemma pollJobsGo_terminal (status : Nat → String → String) (sw T m : Nat)
    (hm : 30 * m < sw) (hT : T ≤ 30 * m) :
    ∀ n t pending, sw - t ≤ n → 30 ∣ t → t ≤ 30 * m →
      (∀ j ∈ pending, ∀ u, T ≤ u → isTerminal (status u j) = true) →
      pollJobsGo status sw pending t = [] := by
  intro n
  induction n with
  | zero =>
    intro t pending hle hdvd htm hp
    omega
  | succ n ih =>
    intro t pending hle hdvd htm hp
    unfold pollJobsGo
    by_cases hg : pending = [] ∨ sw ≤ t
    · rw [dif_pos hg]
      rcases hg with hg | hg
      · exact hg
      · omega
    · rw [dif_neg hg]
      by_cases hrest : pending.filter (fun j => !(isTerminal (status t j))) = []
      · rw [if_pos hrest]
        exact hrest
      · rw [if_neg hrest]
        have htT : t < T := by
          by_contra hge
          push_neg at hge
          apply hrest
          rw [List.filter_eq_nil_iff]
          intro a ha
          rw [hp a ha t hge]
          decide
        have hrec : ∀ j ∈ pending.filter (fun j => !(isTerminal (status t j))),
            ∀ u, T ≤ u → isTerminal (status u j) = true := by
          intro j hjf u hu
          exact hp j (List.mem_filter.mp hjf).1 u hu
        refine ih (t + POLL_EVERY) _ ?_ ?_ ?_ hrec
        · simp only [POLL_EVERY]
          omega
        · simp only [POLL_EVERY]
          omega
        · simp only [POLL_EVERY]
          omega

/-- Claim C5: the task poller runs on the wall-clock budget
`max(WAIT_TIME, PER_TASK_WAIT * job_count)`.  A job that is still
non-terminal at every poll time inside that budget makes the wait step raise,
and then neither the output-listing poller nor the transfer runs for the
site, whatever they would have returned; jobs that are all terminal
(COMPLETED and FAILED both count as terminal) from some in-budget poll time
on are accepted without error. -/
theorem job_poller_spec (status : Nat → String → String) (WT PTW : Nat)
    (taskNames : List String) :
    ((∃ j ∈ taskNames,
        ∀ u, u < max WT (PTW * taskNames.length) → isTerminal (status u j) = false) →
      waitTasks status WT PTW taskNames = .error .eeTimeout ∧
      ∀ listing FT upload site,
        sitePipeline status WT PTW listing FT upload site taskNames
          = .error .eeTimeout) ∧
    (∀ T m, 30 * m < max WT (PTW * taskNames.length) → T ≤ 30 * m →
      (∀ j ∈ taskNames, ∀ u, T ≤ u → isTerminal (status u j) = true) →
      waitTasks status WT PTW taskNames = .ok ()) ∧
    (isTerminal "COMPLETED" = true ∧ isTerminal "FAILED" = true) := by
  refine ⟨?_, ?_, by decide, by decide⟩
  · rintro ⟨j, hjmem, hj⟩
    have herr : waitTasks status WT PTW taskNames = .error .eeTimeout := by
      unfold waitTasks
      rw [if_neg]
      exact List.ne_nil_of_mem
        (pollJobsGo_stuck status _ j hj (max WT (PTW * taskNames.length)) 0 taskNames
          (by omega) hjmem)
    refine ⟨herr, ?_⟩
    intro listing FT upload site
    unfold sitePipeline
    rw [herr]
  · intro T m hm hT hp
    unfold waitTasks
    rw [if_pos]
    exact pollJobsGo_terminal status _ T m hm hT (max WT (PTW * taskNames.length)) 0
      taskNames (by omega) ⟨0, rfl⟩ (by omega) hp

/-- Witness for C5: one concrete stuck job makes the wait raise and stops
the pipeline before the later steps. -/
theorem job_poller_spec_witness :
    waitTasks (fun _ _ => "RUNNING") 60 0 ["a"] = .error .eeTimeout ∧
    sitePipeline (fun _ _ => "RUNNING") 60 0 (fun _ => []) 0 (fun _ => .ok) "s" ["a"]
      = .error .eeTimeout := by
  have h := (job_poller_spec (fun _ _ => "RUNNING") 60 0 ["a"]).1
    ⟨"a", by decide, fun u _ => by decide⟩
  exact ⟨h.1, h.2 (fun _ => []) 0 (fun _ => .ok) "s"⟩

/-! ### Lemmas about the output materialization poller -/

/-- A successful output poll returns a list of at least `want` files, each of
strictly positive size. -/
lemma pollOutputsGo_ok (listing : Nat → List FileMeta) (want FT : Nat) :
    ∀ n k ready, FT / 15 + 2 - k ≤ n → pollOutputsGo listing want FT k = .ok ready →
      want ≤ ready.length ∧ ∀ f ∈ ready, 0 < f.size := by
  intro n
  induction n with
  | zero =>
    intro k ready hle h
    unfold pollOutputsGo at h
    by_cases hc : want ≤ ((listing k).filter (fun f => decide (0 < f.size))).length
    · rw [if_pos hc] at h
      cases h
      refine ⟨hc, ?_⟩
      intro f hf
      have := (List.mem_filter.mp hf).2
      simpa using this
    · rw [if_neg hc] at h
      have hk : FT < 15 * k := by omega
      rw [if_pos hk] at h
      cases h
  | succ n ih =>
    intro k ready hle h
    unfold pollOutputsGo at h
    by_cases hc : want ≤ ((listing k).filter (fun f => decide (0 < f.size))).length
    · rw [if_pos hc] at h
      cases h
      refine ⟨hc, ?_⟩
      intro f hf
      have := (List.mem_filter.mp hf).2
      simpa using this
    · rw [if_neg hc] at h
      by_cases hk : FT < 15 * k
      · rw [if_pos hk] at h
        cases h
      · rw [if_neg hk] at h
        have : k ≤ FT / 15 := (Nat.le_div_iff_mul_le (by norm_num)).mpr (by omega)
        exact ih (k + 1) ready (by omega) h

/-- If no listing ever produces `want` positive-size files, the output poll
raises the file timeout. -/
lemma pollOutputsGo_timeout (listing : Nat → List FileMeta) (want FT : Nat)
    (H : ∀ k, ((listing k).filter (fun f => decide (0 < f.size))).length < want) :
    ∀ n k, FT / 15 + 2 - k ≤ n → pollOutputsGo listing want FT k = .error .fileTimeout := by
  intro n
  induction n with
  | zero =>
    intro k hle
    unfold pollOutputsGo
    rw [if_neg (by have := H k; omega)]
    have hk : FT < 15 * k := by omega
    rw [if_pos hk]
  | succ n ih =>
    intro k hle
    unfold pollOutputsGo
    rw [if_neg (by have := H k; omega)]
    by_cases hk : FT < 15 * k
    · rw [if_pos hk]
    · rw [if_neg hk]
      have : k ≤ FT / 15 := (Nat.le_div_iff_mul_le (by norm_num)).mpr (by omega)
      exact ih (k + 1) (by omega)

/-- Claim C6: the output materialization poller counts a staged file as ready
only if its byte size is strictly positive; it succeeds only with at least
the expected number of such files; and when the expected count is positive,
a store that only ever returns zero-size objects — no matter how many —
makes it raise the fatal file timeout. -/
theorem output_poller_spec (listing : Nat → List FileMeta) (want FT : Nat) :
    (∀ ready, pollOutputsGo listing want FT 0 = .ok ready →
      want ≤ ready.length ∧ ∀ f ∈ ready, 0 < f.size) ∧
    ((∀ k, ((listing k).filter (fun f => decide (0 < f.size))).length < want) →
      pollOutputsGo listing want FT 0 = .error .fileTimeout) ∧
    (0 < want → (∀ k f, f ∈ listing k → f.size = 0) →
      pollOutputsGo listing want FT 0 = .error .fileTimeout) := by
  refine ⟨?_, ?_, ?_⟩
  · intro ready h
    exact pollOutputsGo_ok listing want FT (FT / 15 + 2) 0 ready (by omega) h
  · intro H
    exact pollOutputsGo_timeout listing want FT H (FT / 15 + 2) 0 (by omega)
  · intro hw H
    have hnil : ∀ k, (listing k).filter (fun f => decide (0 < f.size)) = [] := by
      intro k
      rw [List.filter_eq_nil_iff]
      intro f hf
      rw [H k f hf]
      decide
    refine pollOutputsGo_timeout listing want FT ?_ (FT / 15 + 2) 0 (by omega)
    intro k
    rw [hnil k]
    simpa using hw

/-- Witness for C6: one zero-size staged object never satisfies readiness
and the poll times out. -/
theorem output_poller_spec_witness :
    pollOutputsGo (fun _ => [⟨"x.tif", 0⟩]) 1 0 0 = .error .fileTimeout := by
  refine (output_poller_spec (fun _ => [⟨"x.tif", 0⟩]) 1 0).2.2 (by omega) ?_
  intro k f hf
  rw [List.mem_singleton] at hf
  rw [hf]

lemma transferFiles_foldl (site : String) (upload : String → UpResult) :
    ∀ (files : List FileMeta) (st : SiteOutcome),
      files.foldl (transferStep site upload) st =
        ⟨st.sent ++ sentOf site upload files, st.errs ++ errsOf site upload files,
         st.removed ++ files.map (fun f => "/tmp/" ++ f.name)⟩ := by
  intro files
  induction files with
  | nil =>
    intro st
    simp [sentOf, errsOf]
  | cons f rest ih =>
    intro st
    rw [List.foldl_cons, ih]
    rcases hu : upload f.name with _ | e <;>
      simp [transferStep, sentOf, errsOf, hu, isFail, failText, List.filter_cons] <;>
      simp [List.append_assoc]

/-- The three accumulators of one transfer run. -/
lemma transferFiles_eq (site : String) (upload : String → UpResult)
    (files : List FileMeta) :
    transferFiles site upload files =
      ⟨sentOf site upload files, errsOf site upload files,
       files.map (fun f => "/tmp/" ++ f.name)⟩ := by
  unfold transferFiles
  rw [transferFiles_foldl]
  simp

lemma sent_errs_length (site : String) (upload : String → UpResult) :
    ∀ files : List FileMeta,
      (sentOf site upload files).length + (errsOf site upload files).length
        = files.length := by
  intro files
  unfold sentOf errsOf
  rw [List.length_map, List.length_map]
  induction files with
  | nil => simp
  | cons f rest ih =>
    rcases hp : isFail (upload f.name) with _ | _ <;>
      simp [List.filter_cons, hp] <;> omega

/-- Claim C9: every ready file is attempted and its scratch copy removed on
the exit path whatever the upload outcome; a failed upload is recorded as a
(filename, error text) pair without stopping the remaining files; the number
of recorded outcomes equals the number of ready files; and the final report
body lists exactly the failed filenames with their error texts. -/
theorem relay_transfer_accounting (site : String) (upload : String → UpResult)
    (files : List FileMeta) (tt ns : Nat) :
    (transferFiles site upload files).removed = files.map (fun f => "/tmp/" ++ f.name) ∧
    (transferFiles site upload files).sent.length
        + (transferFiles site upload files).errs.length = files.length ∧
    (transferFiles site upload files).errs = errsOf site upload files ∧
    ((transferFiles site upload files).errs ≠ [] →
      mailBody tt ns (transferFiles site upload files).sent
          (transferFiles site upload files).errs =
        [toString tt ++ " exports lancés sur " ++ toString ns ++ " sites.",
         toString (transferFiles site upload files).sent.length
           ++ " fichiers transférés :\n- "
           ++ String.intercalate "\n- " (transferFiles site upload files).sent,
         toString (transferFiles site upload files).errs.length ++ " erreur(s) FTP :\n"
           ++ String.intercalate "\n"
             ((transferFiles site upload files).errs.map
               (fun p => p.1 ++ " : " ++ p.2))]) := by
  have he := transferFiles_eq site upload files
  refine ⟨?_, ?_, ?_, ?_⟩
  · rw [he]
  · rw [he]
    exact sent_errs_length site upload files
  · rw [he]
  · intro hne
    unfold mailBody
    rw [if_neg hne]
    rfl

/-- Witness for C9: one failing upload out of two files is recorded, the
other file is still attempted, both scratch copies are removed, and the
report lists exactly the failure. -/
theorem relay_transfer_accounting_witness :
    (transferFiles "s" (fun n => if n = "a.tif" then .fail "boom" else .ok)
        [⟨"a.tif", 1⟩, ⟨"b.tif", 1⟩]).removed = ["/tmp/a.tif", "/tmp/b.tif"] ∧
    (transferFiles "s" (fun n => if n = "a.tif" then .fail "boom" else .ok)
        [⟨"a.tif", 1⟩, ⟨"b.tif", 1⟩]).sent.length
      + (transferFiles "s" (fun n => if n = "a.tif" then .fail "boom" else .ok)
        [⟨"a.tif", 1⟩, ⟨"b.tif", 1⟩]).errs.length = 2 ∧
    mailBody 2 1 (transferFiles "s" (fun n => if n = "a.tif" then .fail "boom" else .ok)
        [⟨"a.tif", 1⟩, ⟨"b.tif", 1⟩]).sent
      (transferFiles "s" (fun n => if n = "a.tif" then .fail "boom" else .ok)
        [⟨"a.tif", 1⟩, ⟨"b.tif", 1⟩]).errs =
      ["2 exports lancés sur 1 sites.",
       "1 fichiers transférés :\n- s/b.tif",
       "1 erreur(s) FTP :\ns/a.tif : boom"] := by
  have h := relay_transfer_accounting "s"
    (fun n => if n = "a.tif" then .fail "boom" else .ok) [⟨"a.tif", 1⟩, ⟨"b.tif", 1⟩] 2 1
  refine ⟨h.1, by rw [h.2.1]; rfl, ?_⟩
  have h4 := h.2.2.2 (by decide)
  rw [h4]
  decide

/-! ### Job count and the end-to-end scenario -/

lemma exportTasks_length (site : String) (bands : List String) :
    ∀ dates : List String,
      (exportTasks site dates bands).length = dates.length * bands.length := by
  intro dates
  induction dates with
  | nil => simp [exportTasks]
  | cons d ds ih =>
    simp only [exportTasks, List.length_append, List.length_map, List.length_cons, ih]
    ring

/-- Claim C4: the submission loop produces exactly one export job per
(window, band) pair, so the job count is `|windows| * |bands|`; and in a
clean run — every job reaching a terminal state and every export
materializing with positive size — the output poller collects exactly that
many ready objects and the transfer loop attempts exactly that many files. -/
theorem export_job_count (site : String) (dates bands : List String)
    (status : Nat → String → String) (WT PTW FT : Nat) (upload : String → UpResult)
    (listing : Nat → List FileMeta)
    (hWT : 0 < WT)
    (hstatus : ∀ u j, isTerminal (status u j) = true)
    (hlisting : ∀ k, listing k =
      (exportTasks site dates bands).map (fun tk => ⟨taskFname tk ++ ".tif", 1⟩)) :
    (exportTasks site dates bands).length = dates.length * bands.length ∧
    ∃ st, sitePipeline status WT PTW listing FT upload site
        ((exportTasks site dates bands).map taskFname) = .ok st ∧
      st.removed.length = dates.length * bands.length := by
  have hlen := exportTasks_length site bands dates
  refine ⟨hlen, ?_⟩
  have hwait : waitTasks status WT PTW ((exportTasks site dates bands).map taskFname)
      = .ok () := by
    unfold waitTasks
    rw [if_pos]
    exact pollJobsGo_terminal status
      (max WT (PTW * ((exportTasks site dates bands).map taskFname).length)) 0 0
      (by omega) (by omega)
      (max WT (PTW * ((exportTasks site dates bands).map taskFname).length)) 0 _
      (by omega) ⟨0, rfl⟩ (by omega) (fun j hj u hu => hstatus u j)
  have hfil : ((exportTasks site dates bands).map
        (fun tk => FileMeta.mk (taskFname tk ++ ".tif") 1)).filter
        (fun f => decide (0 < f.size)) =
      (exportTasks site dates bands).map
        (fun tk => FileMeta.mk (taskFname tk ++ ".tif") 1) := by
    apply List.filter_eq_self.mpr
    intro f hf
    rcases List.mem_map.mp hf with ⟨tk, -, rfl⟩
    simp
  have hready : pollOutputsGo listing ((exportTasks site dates bands).map taskFname).length
      FT 0 = .ok ((exportTasks site dates bands).map
        (fun tk => FileMeta.mk (taskFname tk ++ ".tif") 1)) := by
    unfold pollOutputsGo
    rw [hlisting 0, hfil]
    rw [if_pos (by simp only [List.length_map]; omega)]

  refine ⟨transferFiles site upload ((exportTasks site dates bands).map
    (fun tk => FileMeta.mk (taskFname tk ++ ".tif") 1)), ?_, ?_⟩
  · unfold sitePipeline
    rw [hwait, hready]
  · rw [transferFiles_eq]
    simp only [List.length_map]
    exact hlen

/-- Witness for C4: site Alpha, 3 dekad windows, 2 bands: 6 jobs, 6 ready
objects, 6 transfer attempts. -/
theorem export_job_count_witness :
    (exportTasks "Alpha" ["20250101", "20250111", "20250121"] ["NDVI", "EVI"]).length = 6 ∧
    ∃ st, sitePipeline (fun _ _ => "COMPLETED") 60 0
        (fun _ => (exportTasks "Alpha" ["20250101", "20250111", "20250121"]
          ["NDVI", "EVI"]).map (fun tk => FileMeta.mk (taskFname tk ++ ".tif") 1)) 0
        (fun _ => UpResult.ok) "Alpha"
        ((exportTasks "Alpha" ["20250101", "20250111", "20250121"]
          ["NDVI", "EVI"]).map taskFname) = .ok st ∧
      st.removed.length = 6 :=
  export_job_count "Alpha" ["20250101", "20250111", "20250121"] ["NDVI", "EVI"]
    (fun _ _ => "COMPLETED") 60 0 0 (fun _ => UpResult.ok)
    (fun _ => (exportTasks "Alpha" ["20250101", "20250111", "20250121"]
      ["NDVI", "EVI"]).map (fun tk => FileMeta.mk (taskFname tk ++ ".tif") 1))
    (by omega) (fun u j => rfl) (fun k => rfl)

/-! ### Notifications -/

/-- Counterexample to claim C10 as stated: a fatal abort does NOT trigger an
error notification — the only mail of the script is sent after the site
loop, so a run aborted by a timeout (here a stuck Earth Engine job) sends no
notification at all, not a distinct critical-failure one. -/
theorem fatal_abort_no_notification_counterexample :
    runMails 30 0 0 ["alpha"]
      (fun _ => ⟨fun _ _ => "RUNNING", fun _ => [], fun _ => UpResult.ok, ["t"]⟩) = [] := by
  have hw : waitTasks (fun _ _ => "RUNNING") 30 0 ["t"] = .error .eeTimeout := by
    unfold waitTasks
    rw [if_neg]
    exact List.ne_nil_of_mem
      (pollJobsGo_stuck (fun _ _ => "RUNNING") (max 30 (0 * (["t"] : List String).length))
        "t" (fun u _ => rfl) (max 30 (0 * (["t"] : List String).length)) 0 ["t"]
        (by omega) (by decide))
  have hs : sitePipeline (fun _ _ => "RUNNING") 30 0 (fun _ => []) 0
      (fun _ => UpResult.ok) "alpha" ["t"] = .error .eeTimeout := by
    unfold sitePipeline
    rw [hw]
  have hrun : runAllGo 30 0 0
      (fun _ => (⟨fun _ _ => "RUNNING", fun _ => [], fun _ => UpResult.ok, ["t"]⟩ : SiteEnv))
      ["alpha"] [] [] = .error .eeTimeout := by
    simp only [runAllGo]
    rw [hs]
  unfold runMails
  rw [hrun]

/-- Amended C10: a run that reaches the end of the site loop emits exactly
one notification, whose subject is the success one when no per-file transfer
errors occurred and the success-with-errors one otherwise; a run aborted by
a fatal error emits no notification at all. -/
theorem run_notification_spec (WT PTW FT : Nat) (sites : List String)
    (env : String → SiteEnv) :
    (∀ sent errs, runAllGo WT PTW FT env sites [] [] = .ok (sent, errs) →
      runMails WT PTW FT sites env = [mailSubject errs] ∧
      (runMails WT PTW FT sites env).length = 1) ∧
    (∀ e, runAllGo WT PTW FT env sites [] [] = .error e →
      runMails WT PTW FT sites env = []) ∧
    mailSubject [] = "GEE -> Drive -> FTP : Succès" ∧
    (∀ p ps, mailSubject (p :: ps) = "GEE -> Drive -> FTP : Succès (avec erreurs)") := by
  refine ⟨?_, ?_, rfl, fun p ps => rfl⟩
  · intro sent errs h
    unfold runMails
    rw [h]
    exact ⟨rfl, rfl⟩
  · intro e h
    unfold runMails
    rw [h]

/-- Witness for the amended C10: a clean one-site run sends exactly the
success mail. -/
theorem run_notification_spec_witness :
    runMails 60 0 0 ["s"]
        (fun _ => ⟨fun _ _ => "COMPLETED", fun _ => [], fun _ => UpResult.ok, []⟩)
      = [mailSubject []] ∧
    (runMails 60 0 0 ["s"]
        (fun _ => ⟨fun _ _ => "COMPLETED", fun _ => [], fun _ => UpResult.ok, []⟩)).length
      = 1 := by
  have h0 : pollJobsGo (fun _ _ => "COMPLETED")
      (max 60 (0 * ([] : List String).length)) [] 0 = [] :=
    pollJobsGo_terminal (fun _ _ => "COMPLETED")
      (max 60 (0 * ([] : List String).length)) 0 0 (by omega) (by omega)
      (max 60 (0 * ([] : List String).length)) 0 []
      (by omega) ⟨0, rfl⟩ (by omega) (by simp)
  have hw : waitTasks (fun _ _ => "COMPLETED") 60 0 [] = .ok () := by
    unfold waitTasks
    rw [if_pos h0]
  have hp : pollOutputsGo (fun _ => []) ([] : List String).length 0 0 = .ok [] := by
    simp [pollOutputsGo]
  have hs : sitePipeline (fun _ _ => "COMPLETED") 60 0 (fun _ => []) 0
      (fun _ => UpResult.ok) "s" [] = .ok ⟨[], [], []⟩ := by
    unfold sitePipeline
    rw [hw, hp]
    rfl
  have hrun : runAllGo 60 0 0
      (fun _ => (⟨fun _ _ => "COMPLETED", fun _ => [], fun _ => UpResult.ok, []⟩ : SiteEnv))
      ["s"] [] [] = .ok ([], []) := by
    simp only [runAllGo]
    rw [hs]
    rfl
  exact (run_notification_spec 60 0 0 ["s"]
    (fun _ => ⟨fun _ _ => "COMPLETED", fun _ => [], fun _ => UpResult.ok, []⟩)).1 [] [] hrun

end GeeAuto
